import Mathlib

/-!
Shallow embedding of the OCSP revocation-verification pipeline from
x/mongo/driver/ocsp/ocsp.go (package ocsp).

External collaborators (the ASN.1 codec `ocsp.ParseResponseForCert` /
`ocsp.CreateRequest`, the config resolver `newConfig`, and the HTTP
transport) are modelled as function parameters / outcome oracles, since
the spec places them out of scope.  Time is modelled as an integer number
of seconds; the integer 0 plays the role of Go's zero `time.Time`, so
`t.IsZero()` becomes `t = 0`, `a.After b` becomes `b < a` and `a.Before b`
becomes `a < b`.  A Go `context.Context` is represented by its optional
absolute deadline.  The nondeterministic completion order of the
per-endpoint goroutines in `contactResponders` is an explicit input: the
list of per-endpoint network outcomes in completion order.
-/

namespace OCSP

/-- An X.509 extension, as inspected by the driver: only its ASN.1 object
identifier matters here. -/
structure Extension where
  id : List Nat
deriving DecidableEq

/-- The fields of an X.509 certificate used by OCSP verification: its
extension list and the OCSP responder endpoints it advertises
(`cert.OCSPServer`). -/
structure Certificate where
  extensions : List Extension
  ocspServer : List String
deriving DecidableEq

/-- OID 1.3.6.1.5.5.7.1.24: the TLS-feature (Must-Staple) extension,
`mustStapleExtensionOID` in the source. -/
def mustStapleExtensionOID : List Nat := [1, 3, 6, 1, 5, 5, 7, 1, 24]

/-- Revocation status carried by a decoded OCSP response
(golang.org/x/crypto/ocsp constants Good, Revoked, Unknown). -/
inductive OCSPStatus where
  | Good
  | Revoked
  | Unknown
deriving DecidableEq

/-- The fields of a decoded OCSP response that the driver inspects.
`nextUpdate = 0` plays the role of Go's zero time (`NextUpdate.IsZero()`). -/
structure OCSPResponse where
  status : OCSPStatus
  thisUpdate : Int
  nextUpdate : Int
deriving DecidableEq

/-- The config produced by `newConfig`: the leaf (server) certificate and
its issuer. -/
structure Config where
  serverCert : Certificate
  issuer : Certificate
deriving DecidableEq

/-- Verification errors, tagged by the site in `Verify` that produced
them.  In the Go source every branch wraps its cause in the single
`*Error` type; the tags here record which source branch fired, matching
the spec's taxonomy (ConfigError, StapleError, NetworkFatalError,
ResponseInvalidError). -/
inductive VerificationError where
  | configError (msg : String)
  | stapleError (msg : String)
  | networkError (timeout canceled : Bool)
  | responseError (msg : String)
deriving DecidableEq

/-- Codec decode collaborator: `ocsp.ParseResponseForCert(bytes, serverCert,
issuer)`. -/
def CodecDecode := List Nat → Certificate → Certificate → Except String OCSPResponse

/-- Codec encode collaborator: `ocsp.CreateRequest(serverCert, issuer, nil)`. -/
def CodecEncode := Certificate → Certificate → Except String (List Nat)

/-- `defaultRequestTimeout = 5 * time.Second`, in seconds. -/
def defaultRequestTimeout : Int := 5

/-- The Must-Staple scan at the top of `parseStaple`: does any extension of
the certificate carry `mustStapleExtensionOID`? -/
def hasMustStaple (cert : Certificate) : Bool :=
  cert.extensions.any (fun ext => decide (ext.id = mustStapleExtensionOID))

/-- `parseStaple(cfg, staple)`: returns the decoded OCSP response from the
provided staple, `none` when no staple is present, or an error when the
Must-Staple extension demands a staple that is absent or when the codec
rejects the staple bytes. -/
def parseStaple (decode : CodecDecode) (cfg : Config) (staple : List Nat) :
    Except String (Option OCSPResponse) :=
  let mustStaple := hasMustStaple cfg.serverCert
  if mustStaple && staple.isEmpty then
    .error "server provided a certificate with the Must-Staple extension but did not provde a stapled OCSP response"
  else if staple.isEmpty then
    .ok none
  else
    match decode staple cfg.serverCert cfg.issuer with
    | .error e => .error ("error parsing stapled response: " ++ e)
    | .ok r => .ok (some r)

/-- The deadline composition at the start of `contactResponders` (the
`wantDeadline` / `userContextUsed` block): given the current time and the
caller context's optional deadline, returns the working context's deadline
together with the `userContextUsed` flag.  `userContextUsed` starts `true`
and is set to `false` exactly when the caller context has no deadline or
its deadline is after `now + defaultRequestTimeout`, in which case the
working context is derived with that cutoff as its deadline. -/
def composeDeadline (now : Int) (ctxDeadline : Option Int) : Option Int × Bool :=
  let wantDeadline := now + defaultRequestTimeout
  match ctxDeadline with
  | none => (some wantDeadline, false)
  | some d => if wantDeadline < d then (some wantDeadline, false) else (some d, true)

/-- What the network and HTTP layer did for one endpoint's task, in the
order the goroutine body observes it: `http.NewRequest` failure; a
transport failure from `http.DefaultClient.Do` that is not a `*url.Error`;
a `*url.Error` transport failure carrying its `Timeout()` bit and whether
its cause is `context.Canceled`; or an HTTP response with a status code and
an optional body (`none` models an `ioutil.ReadAll` failure). -/
inductive EndpointOutcome where
  | buildFailure
  | transportNonURLError
  | transportURLError (timeout canceled : Bool)
  | httpResponse (statusCode : Nat) (body : Option (List Nat))
deriving DecidableEq

/-- What one endpoint goroutine returns to the error group: `nil`
(suppressed), the fatal `newOCSPError(err)` for a caller-attributed
transport failure, or the sentinel `errGotOCSPResponse` after publishing a
conclusive response to the channel. -/
inductive TaskResult where
  | quiet
  | fatal (timeout canceled : Bool)
  | gotResponse (r : OCSPResponse)
deriving DecidableEq

/-- Did the goroutine return `nil`? -/
def TaskResult.isQuiet : TaskResult → Bool
  | .quiet => true
  | _ => false

/-- The response the goroutine published to the channel, if any. -/
def TaskResult.response? : TaskResult → Option OCSPResponse
  | .gotResponse r => some r
  | _ => none

/-- The body of one endpoint goroutine in `contactResponders`, as a
function of the network outcome for that endpoint: request-build and
non-`*url.Error` transport failures are suppressed; a `*url.Error` is
fatal exactly when `userContextUsed` holds and the error is a timeout or a
cancellation; a non-200 status, a body-read failure, a codec decode
failure and a decoded Unknown status are suppressed; a decoded Good or
Revoked response is published. -/
def runEndpointTask (userContextUsed : Bool) (decode : CodecDecode) (cfg : Config)
    (outcome : EndpointOutcome) : TaskResult :=
  match outcome with
  | .buildFailure => .quiet
  | .transportNonURLError => .quiet
  | .transportURLError timeout canceled =>
    if userContextUsed && (timeout || canceled) then .fatal timeout canceled else .quiet
  | .httpResponse statusCode body =>
    if statusCode ≠ 200 then .quiet
    else
      match body with
      | none => .quiet
      | some bytes =>
        match decode bytes cfg.serverCert cfg.issuer with
        | .error _ => .quiet
        | .ok r => if r.status = OCSPStatus.Unknown then .quiet else .gotResponse r

/-- The reduction after `group.Wait()`: the error group records the first
non-nil goroutine return value in completion order.  If that value is a
fatal error (not the `errGotOCSPResponse` sentinel) it is returned as the
query's error; otherwise the first response published to the channel — if
any — is the result, and an untouched channel means no opinion. -/
def reduceTaskResults (results : List TaskResult) :
    Except VerificationError (Option OCSPResponse) :=
  match results.find? (fun r => ! r.isQuiet) with
  | some (.fatal t c) => .error (.networkError t c)
  | _ =>
    match results.filterMap TaskResult.response? with
    | [] => .ok none
    | r :: _ => .ok (some r)

/-- `contactResponders(ctx, cfg)`: no responder endpoints or a failed
`ocsp.CreateRequest` yield no opinion immediately; otherwise the deadline
composition fixes `userContextUsed`, one task runs per observed network
outcome (in goroutine completion order), and the results are reduced as
the error group and channel do. -/
def contactResponders (cfg : Config) (encode : CodecEncode) (decode : CodecDecode)
    (now : Int) (ctxDeadline : Option Int) (netOutcomes : List EndpointOutcome) :
    Except VerificationError (Option OCSPResponse) :=
  if cfg.serverCert.ocspServer.isEmpty then .ok none
  else
    match encode cfg.serverCert cfg.issuer with
    | .error _ => .ok none
    | .ok _ =>
      let userContextUsed := (composeDeadline now ctxDeadline).2
      reduceTaskResults (netOutcomes.map (runEndpointTask userContextUsed decode cfg))

/-- `verifyResponse(cfg, res)`: a `thisUpdate` after the current UTC time,
a non-zero `nextUpdate` before the current time, or a Revoked status is an
error; anything else passes. -/
def verifyResponse (currTime : Int) (res : OCSPResponse) : Except String Unit :=
  if currTime < res.thisUpdate then
    .error "reported thisUpdate time is after current time"
  else if res.nextUpdate ≠ 0 ∧ res.nextUpdate < currTime then
    .error "reported nextUpdate time is before current time"
  else if res.status = OCSPStatus.Revoked then
    .error "certificate is revoked"
  else
    .ok ()

/-- `Verify(ctx, connState)`: the top-level pipeline.  `verifiedChains`
and `ocspStaple` are the TLS connection state; `newConfig` is the config
resolver; `nowContact` and `nowVerify` are the clock readings taken inside
`contactResponders` and `verifyResponse` respectively. -/
def Verify (verifiedChains : List (List Certificate)) (ocspStaple : List Nat)
    (newConfig : List Certificate → Except String Config)
    (decode : CodecDecode) (encode : CodecEncode)
    (nowContact nowVerify : Int) (ctxDeadline : Option Int)
    (netOutcomes : List EndpointOutcome) : Except VerificationError Unit :=
  match verifiedChains with
  | [] => .error (.configError "no verified certificate chains reported after TLS handshake")
  | certChain :: _ =>
    if certChain.isEmpty then
      .error (.configError "verified chain contained no certificates")
    else
      match newConfig certChain with
      | .error e => .error (.configError e)
      | .ok cfg =>
        match parseStaple decode cfg ocspStaple with
        | .error e => .error (.stapleError e)
        | .ok stapleRes =>
          let queried : Except VerificationError (Option OCSPResponse) :=
            match stapleRes with
            | some r => .ok (some r)
            | none => contactResponders cfg encode decode nowContact ctxDeadline netOutcomes
          match queried with
          | .error e => .error e
          | .ok none => .ok ()
          | .ok (some r) =>
            match verifyResponse nowVerify r with
            | .error e => .error (.responseError e)
            | .ok _ => .ok ()

/-! Concrete fixtures used by the witness theorems. -/

/-- A certificate with no extensions and no responder endpoints. -/
def sampleCert : Certificate := { extensions := [], ocspServer := [] }

/-- A certificate carrying the Must-Staple extension. -/
def mustStapleCert : Certificate :=
  { extensions := [{ id := mustStapleExtensionOID }], ocspServer := [] }

/-- Config over `sampleCert`. -/
def sampleConfig : Config := { serverCert := sampleCert, issuer := sampleCert }

/-- Config over `mustStapleCert`. -/
def mustStapleConfig : Config := { serverCert := mustStapleCert, issuer := sampleCert }

/-- A codec decode collaborator that always fails. -/
def failingDecode : CodecDecode := fun _ _ _ => .error "decode failure"

/-- A codec decode collaborator that always yields a Good response valid
around time 0. -/
def goodDecode : CodecDecode :=
  fun _ _ _ => .ok { status := .Good, thisUpdate := -1, nextUpdate := 1 }

/-- A codec encode collaborator that always fails. -/
def failingEncode : CodecEncode := fun _ _ => .error "encode failure"

/-- A config resolver that always yields `sampleConfig`. -/
def sampleResolver : List Certificate → Except String Config := fun _ => .ok sampleConfig

/-- Shared helper: any response whose `thisUpdate` is not in the future,
whose `nextUpdate` is zero or not in the past, and whose status is not
Revoked passes `verifyResponse`. -/
theorem verifyResponse_ok_of_valid (now : Int) (r : OCSPResponse)
    (h1 : r.thisUpdate ≤ now) (h2 : r.nextUpdate = 0 ∨ now ≤ r.nextUpdate)
    (h3 : r.status ≠ OCSPStatus.Revoked) : verifyResponse now r = .ok () := by
  have hc2 : ¬(r.nextUpdate ≠ 0 ∧ r.nextUpdate < now) := by
    rcases h2 with h | h
    · simp [h]
    · rintro ⟨_, hlt⟩; omega
  unfold verifyResponse
  rw [if_neg (by omega), if_neg hc2, if_neg h3]

/-- C4: verifyResponse applies exactly these checks in this order: a
`thisUpdate` later than the current time errors; otherwise a present
(non-zero) `nextUpdate` earlier than the current time errors; otherwise a
Revoked status errors; a Good response with `thisUpdate` in the past and
`nextUpdate` in the future passes with no error. -/
theorem verifyResponse_checks (now : Int) (r : OCSPResponse) :
    (now < r.thisUpdate →
      verifyResponse now r = .error "reported thisUpdate time is after current time") ∧
    (r.thisUpdate ≤ now → r.nextUpdate ≠ 0 → r.nextUpdate < now →
      verifyResponse now r = .error "reported nextUpdate time is before current time") ∧
    (r.thisUpdate ≤ now → (r.nextUpdate = 0 ∨ now ≤ r.nextUpdate) →
      r.status = OCSPStatus.Revoked →
      verifyResponse now r = .error "certificate is revoked") ∧
    (r.status = OCSPStatus.Good → r.thisUpdate < now → now < r.nextUpdate →
      verifyResponse now r = .ok ()) := by
  refine ⟨?_, ?_, ?_, ?_⟩
  · intro h
    unfold verifyResponse
    rw [if_pos h]
  · intro h1 h2 h3
    unfold verifyResponse
    rw [if_neg (by omega), if_pos ⟨h2, h3⟩]
  · intro h1 h2 h3
    have hc2 : ¬(r.nextUpdate ≠ 0 ∧ r.nextUpdate < now) := by
      rcases h2 with h | h
      · simp [h]
      · rintro ⟨_, hlt⟩; omega
    unfold verifyResponse
    rw [if_neg (by omega), if_neg hc2, if_pos h3]
  · intro hg h1 h2
    exact verifyResponse_ok_of_valid now r (le_of_lt h1) (Or.inr (le_of_lt h2))
      (by rw [hg]; simp)

/-- Witness for C4: a Good response with `thisUpdate` in the past and
`nextUpdate` in the future validates. -/
theorem verifyResponse_checks_witness :
    verifyResponse 100 { status := .Good, thisUpdate := 50, nextUpdate := 150 } = .ok () :=
  (verifyResponse_checks 100
    { status := .Good, thisUpdate := 50, nextUpdate := 150 }).2.2.2 rfl (by decide) (by decide)

/-- C10: any response whose `thisUpdate` is not after the current time and
whose `nextUpdate` is zero or not before the current time passes
`verifyResponse` whenever its status is anything other than Revoked — in
particular a response with status Unknown passes validation. -/
theorem verifyResponse_unknown_passes (now : Int) (r : OCSPResponse)
    (h1 : r.thisUpdate ≤ now) (h2 : r.nextUpdate = 0 ∨ now ≤ r.nextUpdate)
    (h3 : r.status ≠ OCSPStatus.Revoked) : verifyResponse now r = .ok () :=
  verifyResponse_ok_of_valid now r h1 h2 h3

/-- Witness for C10: a response with status Unknown passes validation. -/
theorem verifyResponse_unknown_passes_witness :
    verifyResponse 100 { status := .Unknown, thisUpdate := 50, nextUpdate := 0 } = .ok () :=
  verifyResponse_unknown_passes 100 { status := .Unknown, thisUpdate := 50, nextUpdate := 0 }
    (by decide) (Or.inl rfl) (by decide)

/-- C2: deadline composition in `contactResponders`.  With the internal
cutoff `now + defaultRequestTimeout`: if the caller's context has no
deadline or its deadline is later than the cutoff, the working context is
bounded by the cutoff and `userContextUsed` is false (the caller's
deadline is not the limiting factor); if the caller's deadline is earlier
than the cutoff, the caller's context is used unmodified and
`userContextUsed` is true. -/
theorem composeDeadline_spec (now : Int) (d : Option Int) :
    ((d = none ∨ ∃ t, d = some t ∧ now + defaultRequestTimeout < t) →
      composeDeadline now d = (some (now + defaultRequestTimeout), false)) ∧
    (∀ t, d = some t → t < now + defaultRequestTimeout →
      composeDeadline now d = (some t, true)) := by
  constructor
  · rintro (rfl | ⟨t, rfl, ht⟩)
    · rfl
    · simp only [composeDeadline]
      rw [if_pos ht]
  · rintro t rfl ht
    simp only [composeDeadline]
    rw [if_neg (by omega)]

/-- Witness for C2: no caller deadline yields the 5-second cutoff and a
false flag; a caller deadline of 3 at time 0 is kept and flagged true. -/
theorem composeDeadline_spec_witness :
    composeDeadline 0 none = (some 5, false) ∧ composeDeadline 0 (some 3) = (some 3, true) :=
  ⟨(composeDeadline_spec 0 none).1 (Or.inl rfl),
   (composeDeadline_spec 0 (some 3)).2 3 rfl (by decide)⟩

/-- C3: a per-endpoint task's transport failure is fatal if and only if
`userContextUsed` holds (the caller's deadline is the limiting factor) and
the `*url.Error` is a timeout or a cancellation; every other transport
failure — a `*url.Error` without those bits (internal-cutoff expiry,
connection refusal) and any non-`*url.Error` failure (DNS failure) — is
suppressed; a fatal result that arrives first aborts the whole query with
an error. -/
theorem transportFailure_classification (u t c : Bool) (decode : CodecDecode) (cfg : Config) :
    (runEndpointTask u decode cfg (.transportURLError t c) = .fatal t c ↔
      u = true ∧ (t = true ∨ c = true)) ∧
    (¬(u = true ∧ (t = true ∨ c = true)) →
      runEndpointTask u decode cfg (.transportURLError t c) = .quiet) ∧
    runEndpointTask u decode cfg .transportNonURLError = .quiet ∧
    (∀ rest, reduceTaskResults (.fatal t c :: rest) = .error (.networkError t c)) := by
  refine ⟨?_, ?_, rfl, ?_⟩
  · cases u <;> cases t <;> cases c <;> simp [runEndpointTask]
  · cases u <;> cases t <;> cases c <;> simp [runEndpointTask]
  · intro rest
    simp [reduceTaskResults, List.find?, TaskResult.isQuiet]

/-- Witness for C3: with the caller context limiting and a timeout bit
set, the task is fatal. -/
theorem transportFailure_classification_witness :
    runEndpointTask true failingDecode sampleConfig (.transportURLError true false) =
      .fatal true false :=
  (transportFailure_classification true true false failingDecode sampleConfig).1.mpr
    ⟨rfl, Or.inl rfl⟩

/-- C8: `contactResponders` returns no opinion and no error, independently
of any network outcome, both when the certificate lists zero OCSP
responder endpoints and when `ocsp.CreateRequest` fails. -/
theorem contactResponders_no_opinion (cfg : Config) (encode : CodecEncode)
    (decode : CodecDecode) (now : Int) (d : Option Int) (outs : List EndpointOutcome) :
    (cfg.serverCert.ocspServer = [] →
      contactResponders cfg encode decode now d outs = .ok none) ∧
    (∀ e, encode cfg.serverCert cfg.issuer = .error e →
      contactResponders cfg encode decode now d outs = .ok none) := by
  constructor
  · intro h
    simp [contactResponders, h]
  · intro e h
    by_cases hs : cfg.serverCert.ocspServer.isEmpty
    · simp [contactResponders, hs]
    · simp [contactResponders, hs, h]

/-- Witness for C8: a certificate with no responder endpoints yields no
opinion. -/
theorem contactResponders_no_opinion_witness :
    contactResponders sampleConfig failingEncode failingDecode 0 none [] = .ok none :=
  (contactResponders_no_opinion sampleConfig failingEncode failingDecode 0 none []).1 rfl

/-- C5: with empty staple bytes, `parseStaple` errors when the leaf
carries Must-Staple and yields "no response" with no error otherwise; in
the latter case the caller proceeds to the network query, whose outcome
then surfaces through `Verify`. -/
theorem parseStaple_empty (decode : CodecDecode) (cfg : Config) :
    (hasMustStaple cfg.serverCert = true →
      parseStaple decode cfg [] = .error "server provided a certificate with the Must-Staple extension but did not provde a stapled OCSP response") ∧
    (hasMustStaple cfg.serverCert = false → parseStaple decode cfg [] = .ok none) ∧
    (hasMustStaple cfg.serverCert = false →
      ∀ (chain : List Certificate) (rest : List (List Certificate))
        (newConfig : List Certificate → Except String Config) (encode : CodecEncode)
        (nowC nowV : Int) (d : Option Int) (outs : List EndpointOutcome)
        (e : VerificationError),
        chain ≠ [] → newConfig chain = .ok cfg →
        contactResponders cfg encode decode nowC d outs = .error e →
        Verify (chain :: rest) [] newConfig decode encode nowC nowV d outs = .error e) := by
  refine ⟨?_, ?_, ?_⟩
  · intro h
    simp [parseStaple, h]
  · intro h
    simp [parseStaple, h]
  · intro h chain rest newConfig encode nowC nowV d outs e hne hcfg hq
    have hstaple : parseStaple decode cfg [] = .ok none := by simp [parseStaple, h]
    cases chain with
    | nil => exact absurd rfl hne
    | cons a l => simp [Verify, hcfg, hstaple, hq]

/-- Witness for C5: Must-Staple with empty staple errors; no Must-Staple
with empty staple yields no response. -/
theorem parseStaple_empty_witness :
    parseStaple failingDecode mustStapleConfig [] = .error "server provided a certificate with the Must-Staple extension but did not provde a stapled OCSP response" ∧
    parseStaple failingDecode sampleConfig [] = .ok none :=
  ⟨(parseStaple_empty failingDecode mustStapleConfig).1 (by decide),
   (parseStaple_empty failingDecode sampleConfig).2.1 (by decide)⟩

/-- C6: with non-empty staple bytes, a codec decode failure makes
`parseStaple` return an error wrapping the codec's cause, regardless of
Must-Staple (the quantification over `cfg` puts no condition on it); on
successful decode it returns the decoded response with no error. -/
theorem parseStaple_decode (decode : CodecDecode) (cfg : Config) (staple : List Nat)
    (hne : staple ≠ []) :
    (∀ e, decode staple cfg.serverCert cfg.issuer = .error e →
      parseStaple decode cfg staple = .error ("error parsing stapled response: " ++ e)) ∧
    (∀ r, decode staple cfg.serverCert cfg.issuer = .ok r →
      parseStaple decode cfg staple = .ok (some r)) := by
  have hie : staple.isEmpty = false := by
    cases staple with
    | nil => exact absurd rfl hne
    | cons a l => rfl
  constructor
  · intro e h
    simp [parseStaple, hie, h]
  · intro r h
    simp [parseStaple, hie, h]

/-- Witness for C6: malformed staple bytes error even on a Must-Staple
certificate, and a decodable staple is returned. -/
theorem parseStaple_decode_witness :
    parseStaple failingDecode mustStapleConfig [0] =
      .error ("error parsing stapled response: " ++ "decode failure") ∧
    parseStaple goodDecode sampleConfig [0] =
      .ok (some { status := .Good, thisUpdate := -1, nextUpdate := 1 }) :=
  ⟨(parseStaple_decode failingDecode mustStapleConfig [0] (by decide)).1 "decode failure" rfl,
   (parseStaple_decode goodDecode sampleConfig [0] (by decide)).2
     { status := .Good, thisUpdate := -1, nextUpdate := 1 } rfl⟩

/-- C7: with an empty chain set, or a first chain containing zero
certificates, `Verify` fails with a config error whose value is fixed
before — and independent of — any staple or network collaborator. -/
theorem verify_configError_on_empty_chain (staple : List Nat)
    (newConfig : List Certificate → Except String Config) (decode : CodecDecode)
    (encode : CodecEncode) (nowC nowV : Int) (d : Option Int)
    (outs : List EndpointOutcome) :
    Verify [] staple newConfig decode encode nowC nowV d outs =
      .error (.configError "no verified certificate chains reported after TLS handshake") ∧
    ∀ rest, Verify ([] :: rest) staple newConfig decode encode nowC nowV d outs =
      .error (.configError "verified chain contained no certificates") :=
  ⟨rfl, fun _ => rfl⟩

/-- C1: when the staple yields no usable response and the responder query
returns no conclusive response and no error, `Verify` returns success —
absence of revocation information is never itself a failure. -/
theorem verify_fail_open (chain : List Certificate) (rest : List (List Certificate))
    (staple : List Nat) (newConfig : List Certificate → Except String Config)
    (decode : CodecDecode) (encode : CodecEncode) (nowC nowV : Int)
    (d : Option Int) (outs : List EndpointOutcome) (cfg : Config)
    (hne : chain ≠ [])
    (hcfg : newConfig chain = .ok cfg)
    (hstaple : parseStaple decode cfg staple = .ok none)
    (hquery : contactResponders cfg encode decode nowC d outs = .ok none) :
    Verify (chain :: rest) staple newConfig decode encode nowC nowV d outs = .ok () := by
  cases chain with
  | nil => exact absurd rfl hne
  | cons a l => simp [Verify, hcfg, hstaple, hquery]

/-- Witness for C1: no staple, no responder endpoints — verification
succeeds. -/
theorem verify_fail_open_witness :
    Verify [[sampleCert]] [] sampleResolver failingDecode failingEncode 0 0 none [] = .ok () :=
  verify_fail_open [sampleCert] [] [] sampleResolver failingDecode failingEncode 0 0 none []
    sampleConfig (List.cons_ne_nil _ _) rfl rfl rfl

/-- C9: when the staple yields a usable response, `Verify`'s result is
independent of the responder-query collaborators (the querier is never
consulted), and a valid, conclusive, non-expired Good staple makes the
overall verification succeed. -/
theorem verify_staple_skips_querier (chain : List Certificate)
    (rest : List (List Certificate)) (staple : List Nat)
    (newConfig : List Certificate → Except String Config) (decode : CodecDecode)
    (nowV : Int) (cfg : Config) (r : OCSPResponse)
    (hne : chain ≠ [])
    (hcfg : newConfig chain = .ok cfg)
    (hstaple : parseStaple decode cfg staple = .ok (some r)) :
    (∀ (encode encode' : CodecEncode) (nowC nowC' : Int) (d d' : Option Int)
        (outs outs' : List EndpointOutcome),
      Verify (chain :: rest) staple newConfig decode encode nowC nowV d outs =
        Verify (chain :: rest) staple newConfig decode encode' nowC' nowV d' outs') ∧
    (r.status = OCSPStatus.Good → r.thisUpdate ≤ nowV →
      (r.nextUpdate = 0 ∨ nowV ≤ r.nextUpdate) →
      ∀ (encode : CodecEncode) (nowC : Int) (d : Option Int) (outs : List EndpointOutcome),
        Verify (chain :: rest) staple newConfig decode encode nowC nowV d outs = .ok ()) := by
  cases chain with
  | nil => exact absurd rfl hne
  | cons a l =>
    constructor
    · intros
      simp [Verify, hcfg, hstaple]
    · intro hg h1 h2 encode nowC d outs
      have hv : verifyResponse nowV r = .ok () :=
        verifyResponse_ok_of_valid nowV r h1 h2 (by rw [hg]; simp)
      simp [Verify, hcfg, hstaple, hv]

/-- Witness for C9: a stapled Good response valid at time 0 verifies with
collaborators that would fail if consulted. -/
theorem verify_staple_skips_querier_witness :
    Verify [[sampleCert]] [0] sampleResolver goodDecode failingEncode 7 0 none [] = .ok () :=
  (verify_staple_skips_querier [sampleCert] [] [0] sampleResolver goodDecode 0 sampleConfig
      { status := .Good, thisUpdate := -1, nextUpdate := 1 }
      (List.cons_ne_nil _ _) rfl rfl).2 rfl (by decide) (Or.inr (by decide))
    failingEncode 7 none []

end OCSP
